import Mathlib

/-!
Verification development for the react-opensheetmusic adapter layer.

The TypeScript sources are shallowly embedded: React hook state becomes
explicit state records, engine interactions become event traces, thrown
JavaScript values become an explicit `JSValue` type, and promise
settlement of the external engine is a parameter of type
`Except JSValue Unit` (the engine either resolves or rejects with a
thrown value).
-/

/-- A JavaScript runtime value as far as throwing is concerned: either an
Error instance carrying its message, or any non-Error value (tagged so
that distinct values stay distinct). -/
inductive JSValue where
  | errorVal (msg : String)
  | nonError (tag : String)
deriving DecidableEq, Repr

/-- The result of the JavaScript test `v instanceof Error`. -/
def JSValue.isError : JSValue → Bool
  | .errorVal _ => true
  | .nonError _ => false

namespace UseOSMD

/-- The observable state owned by the useOSMD hook that the load and clear
operations touch: whether osmdRef.current is non-null, the isLoading flag,
and the error state (from src/src/hooks/useOSMD.ts lines 9-14). -/
structure OSMDState where
  osmdInstance : Bool
  isLoading : Bool
  error : Option JSValue
deriving DecidableEq, Repr

/-- One observable step performed by a hook operation: a state setter call
or an engine interaction. -/
inductive Ev where
  | setIsLoading (b : Bool)
  | setError (e : Option JSValue)
  | engineLoad
  | engineRender
  | engineClear
deriving DecidableEq, Repr

/-- Effect of one event on the hook state; engine interactions do not
change the hook state. -/
def applyEv (s : OSMDState) : Ev → OSMDState
  | .setIsLoading b => { s with isLoading := b }
  | .setError e => { s with error := e }
  | _ => s

/-- Effect of a whole event trace, in order. -/
def applyEvs (s : OSMDState) (evs : List Ev) : OSMDState :=
  evs.foldl applyEv s

/-- The error thrown when an operation is called with no engine instance
(src/src/hooks/useOSMD.ts line 45). -/
def notInitErr : JSValue := .errorVal "OSMD instance not initialized"

/-- Normalisation applied to a value thrown during load
(src/src/hooks/useOSMD.ts line 55): an Error instance passes through,
anything else becomes a generic Error. -/
def wrapLoadErr (v : JSValue) : JSValue :=
  if v.isError then v else .errorVal "Failed to load music"

/-- Shallow embedding of load from src/src/hooks/useOSMD.ts lines 42-63
(identical in the part_003 variant, lines 64-85). The settlement of the
engine load promise and of the synchronous render call are the
parameters loadOutcome and renderOutcome. The result is the ordered
trace of observable events together with the value load re-raises to its
caller (none on normal return). -/
def load (s : OSMDState) (loadOutcome renderOutcome : Except JSValue Unit) :
    List Ev × Option JSValue :=
  if s.osmdInstance = false then
    ([], some notInitErr)
  else
    match loadOutcome with
    | .error v =>
        let e := wrapLoadErr v
        ([.setIsLoading true, .setError none, .engineLoad,
          .setError (some e), .setIsLoading false], some e)
    | .ok _ =>
        match renderOutcome with
        | .error v =>
            let e := wrapLoadErr v
            ([.setIsLoading true, .setError none, .engineLoad, .engineRender,
              .setError (some e), .setIsLoading false], some e)
        | .ok _ =>
            ([.setIsLoading true, .setError none, .engineLoad, .engineRender,
              .setIsLoading false], none)

/-- Shallow embedding of clear from src/src/hooks/useOSMD.ts lines 96-101
(identical in the part_003 variant, lines 118-123): a guarded engine
clear followed by resetting the error state. -/
def clear (s : OSMDState) : OSMDState × List Ev :=
  if s.osmdInstance then ({ s with error := none }, [.engineClear])
  else (s, [])

/-- The refs and state touched by the initialization effect of useOSMD:
the one-shot latch initRef, the instance refs, and the error state. -/
structure InitState where
  initRef : Bool
  osmdRef : Bool
  osmd : Bool
  error : Option JSValue
deriving DecidableEq, Repr

/-- Normalisation applied to a value thrown by the engine constructor
(src/src/hooks/useOSMD.ts line 27). -/
def wrapInitErr (v : JSValue) : JSValue :=
  if v.isError then v else .errorVal "Failed to initialize OSMD"

/-- Shallow embedding of one run of the initialization effect from
src/src/hooks/useOSMD.ts lines 17-29. The parameter outcome is the
settlement of the engine constructor call. The Bool result records
whether a construction attempt was made on this run. A thrown
construction failure is captured, never propagated, and in this variant
the initRef latch is NOT set on failure. -/
def initEffect (s : InitState) (containerPresent : Bool)
    (outcome : Except JSValue Unit) : InitState × Bool :=
  if containerPresent = false || s.initRef then (s, false)
  else
    match outcome with
    | .ok _ => ({ s with osmdRef := true, osmd := true, initRef := true }, true)
    | .error v => ({ s with error := some (wrapInitErr v) }, true)

/-- Shallow embedding of one run of the initialization effect in the
part_003 variant (src/unnamed/part_003 lines 37-51): identical to
initEffect except that the initRef latch is also set when construction
throws, suppressing later attempts. -/
def initEffectV2 (s : InitState) (containerPresent : Bool)
    (outcome : Except JSValue Unit) : InitState × Bool :=
  if containerPresent = false || s.initRef then (s, false)
  else
    match outcome with
    | .ok _ => ({ s with osmdRef := true, osmd := true, initRef := true }, true)
    | .error v => ({ s with error := some (wrapInitErr v), initRef := true }, true)

end UseOSMD

namespace SheetMusic

/-- A value of the file prop of the SheetMusic component: a path string,
or a reference to a Document or Blob object (identity by tag, matching
the reference-equality comparison the component performs on them). -/
inductive FileProp where
  | str (s : String)
  | docRef (id : Nat)
  | blobRef (id : Nat)
deriving DecidableEq, Repr

/-- A load source handed to the binding primitive: a path string, a
Document freshly produced by DOMParser.parseFromString (carrying the
parsed text and the MIME type), or a Document/Blob passed through from
the file prop. -/
inductive Source where
  | str (s : String)
  | parsedDoc (content : String) (mime : String)
  | docRef (id : Nat)
  | blobRef (id : Nat)
deriving DecidableEq, Repr

/-- Passing a file prop value through unchanged as a load source
(src/src/components/SheetMusic.tsx line 49). -/
def sourceOfFile : FileProp → Source
  | .str s => .str s
  | .docRef i => .docRef i
  | .blobRef i => .blobRef i

/-- DOMParser.parseFromString, kept abstract: the resulting Document is
identified by the parsed text and the MIME type
(src/src/components/SheetMusic.tsx lines 43-44). -/
def parseFromString (s : String) (mime : String) : Source :=
  .parsedDoc s mime

/-- String.prototype.trim as called on the musicXML prop
(src/src/components/SheetMusic.tsx line 42), modelled over the character
list with the whitespace predicate (space, tab, carriage return, line
feed). -/
def jsTrim (s : String) : String :=
  ⟨((s.data.dropWhile Char.isWhitespace).reverse.dropWhile
      Char.isWhitespace).reverse⟩

/-- JavaScript truthiness of the file prop: undefined and the empty
string are falsy, Document and Blob objects are truthy. -/
def fileTruthy : Option FileProp → Bool
  | none => false
  | some (.str s) => if s = "" then false else true
  | some _ => true

/-- JavaScript truthiness of the musicXML prop: undefined and the empty
string are falsy. -/
def xmlTruthy : Option String → Bool
  | none => false
  | some s => if s = "" then false else true

/-- Observable outcome of one run of the load-trigger effect: the load
call issued to the binding primitive (none when no load is triggered)
and the updated prevFileRef / prevMusicXMLRef tracking values. -/
structure EffectResult where
  loadCall : Option Source
  prevFile : Option FileProp
  prevXML : Option String
deriving DecidableEq, Repr

/-- Shallow embedding of the load-trigger effect of the SheetMusic
component (src/src/components/SheetMusic.tsx lines 24-64): the change
check against the tracked previous props, the both-absent guard using
JavaScript truthiness, then the loadMusic body with its musicXML-first
resolution, the whitespace-only musicXML skip, and the dead empty-string
file check, each translated in source order. -/
def sheetMusicEffect (osmdExists : Bool) (file : Option FileProp)
    (musicXML : Option String) (prevFile : Option FileProp)
    (prevXML : Option String) : EffectResult :=
  if osmdExists = false then ⟨none, prevFile, prevXML⟩
  else if file = prevFile ∧ musicXML = prevXML then ⟨none, prevFile, prevXML⟩
  else if fileTruthy file = false ∧ xmlTruthy musicXML = false then
    ⟨none, prevFile, prevXML⟩
  else if xmlTruthy musicXML = true then
    match musicXML with
    | some x =>
        if jsTrim x = "" then ⟨none, prevFile, prevXML⟩
        else ⟨some (parseFromString x "text/xml"), prevFile, some x⟩
    | none => ⟨none, prevFile, prevXML⟩
  else if fileTruthy file = true then
    match file with
    | some f =>
        if f = .str "" then ⟨none, prevFile, prevXML⟩
        else ⟨some (sourceOfFile f), some f, prevXML⟩
    | none => ⟨none, prevFile, prevXML⟩
  else ⟨none, prevFile, prevXML⟩

end SheetMusic

namespace UsePageFormat

/-- A page format record (src/src/hooks/usePageFormat.ts lines 3-8); the
optional isInfinite field is an Option. Dimensions are JavaScript
numbers, modelled as rationals. -/
structure PageFormat where
  width : ℚ
  height : ℚ
  idString : String
  isInfinite : Option Bool := none
deriving DecidableEq, Repr

/-- The Endless registry entry (src/src/hooks/usePageFormat.ts line 21). -/
def endlessFormat : PageFormat :=
  { width := 210, height := 10000, idString := "Endless", isInfinite := some true }

/-- The static format registry PageFormats
(src/src/hooks/usePageFormat.ts lines 10-22) as a lookup returning none
for a missing key (the JavaScript undefined). -/
def PageFormats : String → Option PageFormat
  | "A3_L" => some { width := 420, height := 297, idString := "A3_L" }
  | "A3_P" => some { width := 297, height := 420, idString := "A3_P" }
  | "A4_L" => some { width := 297, height := 210, idString := "A4_L" }
  | "A4_P" => some { width := 210, height := 297, idString := "A4_P" }
  | "A5_L" => some { width := 210, height := 148, idString := "A5_L" }
  | "A5_P" => some { width := 148, height := 210, idString := "A5_P" }
  | "A6_L" => some { width := 148, height := 105, idString := "A6_L" }
  | "A6_P" => some { width := 105, height := 148, idString := "A6_P" }
  | "Letter_L" => some { width := 279.4, height := 215.9, idString := "Letter_L" }
  | "Letter_P" => some { width := 215.9, height := 279.4, idString := "Letter_P" }
  | "Endless" => some endlessFormat
  | _ => none

/-- The string branch of setFormat (src/src/hooks/usePageFormat.ts
line 52): registry lookup with JavaScript or-else fallback to Endless
(the lookup result is an object or undefined, so the fallback fires
exactly on a missing key). -/
def setFormatStr (name : String) : PageFormat :=
  (PageFormats name).getD endlessFormat

/-- JavaScript number-to-string conversion as used inside the template
literal of setCustomFormat, modelled by the canonical rational
rendering. -/
def numToStr (q : ℚ) : String := toString q

/-- Shallow embedding of setCustomFormat (src/src/hooks/usePageFormat.ts
lines 58-65): the id is used whenever it is not undefined (an empty
string counts as supplied), otherwise a Custom_<w>x<h> id is generated;
isInfinite is always set to false. -/
def setCustomFormat (width height : ℚ) (id : Option String) : PageFormat :=
  { width := width
    height := height
    idString :=
      match id with
      | some i => i
      | none => "Custom_" ++ numToStr width ++ "x" ++ numToStr height
    isInfinite := some false }

end UsePageFormat

namespace UseMultipleCursors

/-- The cursor type enum from the src/types module (the module itself is
not in the sources; the constructors follow its uses in
src/unnamed/part_002 and the test files). -/
inductive CursorType where
  | standard
  | thin
  | short
deriving DecidableEq, Repr

/-- A cursor configuration record (spec section 3 and
src/unnamed/part_002 lines 48-56): type, color, alpha, follow. -/
structure CursorOptions where
  type : CursorType
  color : String
  alpha : ℚ
  follow : Bool
deriving DecidableEq, Repr

/-- A Partial of CursorOptions: each field optionally present, as in the
update argument of updateCursor and the overrides argument of
createDefaultCursor. -/
structure CursorUpdate where
  type : Option CursorType := none
  color : Option String := none
  alpha : Option ℚ := none
  follow : Option Bool := none
deriving DecidableEq, Repr

/-- The object-spread merge of a cursor with a partial update: a present
update field wins over the base field. -/
def mergeCursor (c : CursorOptions) (u : CursorUpdate) : CursorOptions :=
  { type := u.type.getD c.type
    color := u.color.getD c.color
    alpha := u.alpha.getD c.alpha
    follow := u.follow.getD c.follow }

/-- addCursor (src/unnamed/part_002 lines 21-23): append to the end. -/
def addCursor (cs : List CursorOptions) (c : CursorOptions) : List CursorOptions :=
  cs ++ [c]

/-- removeCursor (src/unnamed/part_002 lines 25-27): filter by position,
keeping every element whose index differs from the argument. The index
is a JavaScript number, modelled as an integer so negative arguments are
representable. -/
def removeCursor (cs : List CursorOptions) (index : Int) : List CursorOptions :=
  (cs.enum.filter (fun p => if (p.1 : Int) = index then false else true)).map Prod.snd

/-- updateCursor (src/unnamed/part_002 lines 29-33): map by position,
merging the update into the element at the matching index. -/
def updateCursor (cs : List CursorOptions) (index : Int) (u : CursorUpdate) :
    List CursorOptions :=
  cs.enum.map (fun p => if (p.1 : Int) = index then mergeCursor p.2 u else p.2)

/-- createDefaultCursor (src/unnamed/part_002 lines 48-56): the default
record with the overrides spread on top. -/
def createDefaultCursor (overrides : CursorUpdate) : CursorOptions :=
  mergeCursor { type := .standard, color := "#33e02f", alpha := 1 / 2, follow := false }
    overrides

end UseMultipleCursors

namespace UseColoring

/-- The coloring mode enum from the src/types module (the module itself
is not in the sources; the constructors follow its uses in
src/unnamed/part_004 and the useColoring tests). -/
inductive ColoringMode where
  | xml
  | boomwhacker
  | customColorSet
deriving DecidableEq, Repr

/-- The default Boomwhacker palette (src/unnamed/part_004 lines 22-31). -/
def defaultBoomwhackerColors : List String :=
  ["#ff0000", "#ff7f00", "#ffff00", "#00ff00", "#0000ff", "#4b0082", "#9400d3",
   "#000000"]

/-- The options record accepted by useColoring (src/unnamed/part_004
lines 4-8): mode, customColors and enabled, each optional; there is no
darkMode field. -/
structure UseColoringOptions where
  mode : Option ColoringMode := none
  customColors : Option (List String) := none
  enabled : Option Bool := none
deriving DecidableEq, Repr

/-- The state held by useColoring. -/
structure ColoringState where
  coloringMode : ColoringMode
  customColors : List String
  coloringEnabled : Bool
  darkMode : Bool
deriving DecidableEq, Repr

/-- The initial state computed by useColoring from its options
(src/unnamed/part_004 lines 36-45): each field defaults with the nullish
coalescing operator, and darkMode starts at the literal false with no
input feeding it. -/
def useColoringInit (o : UseColoringOptions) : ColoringState :=
  { coloringMode := o.mode.getD .xml
    customColors := o.customColors.getD defaultBoomwhackerColors
    coloringEnabled := o.enabled.getD false
    darkMode := false }

/-- The setDarkMode setter returned by useColoring. -/
def setDarkMode (s : ColoringState) (b : Bool) : ColoringState :=
  { s with darkMode := b }

/-- The derived options record produced by getOptions
(src/unnamed/part_004 lines 47-54): the custom palette is included only
in customColorSet mode. -/
structure DerivedOptions where
  coloringMode : ColoringMode
  coloringEnabled : Bool
  coloringSetCustom : Option (List String)
  darkMode : Bool
deriving DecidableEq, Repr

/-- getOptions (src/unnamed/part_004 lines 47-54). -/
def getOptions (s : ColoringState) : DerivedOptions :=
  { coloringMode := s.coloringMode
    coloringEnabled := s.coloringEnabled
    coloringSetCustom :=
      if s.coloringMode = .customColorSet then some s.customColors else none
    darkMode := s.darkMode }

end UseColoring

namespace UseOSMD

/-- Claim C1: load raises the not-initialized error and does nothing else
when no engine instance exists; otherwise its event trace starts by
setting isLoading to true and clearing the error state before the engine
load, the engine render follows the engine load when the load settles
successfully, any engine-side failure is re-raised after wrapping
(non-Error values become the generic failed-to-load Error) and stored in
the error state, and the final isLoading is false in every initialized
run. -/
theorem load_contract (s : OSMDState) (lo ro : Except JSValue Unit) :
    (s.osmdInstance = false → load s lo ro = ([], some notInitErr)) ∧
    (s.osmdInstance = true →
      (load s lo ro).1.take 3 =
        [Ev.setIsLoading true, Ev.setError none, Ev.engineLoad] ∧
      (lo = .ok () →
        (load s lo ro).1.take 4 =
          [Ev.setIsLoading true, Ev.setError none, Ev.engineLoad,
           Ev.engineRender]) ∧
      (∀ v, lo = .error v →
        (load s lo ro).2 = some (wrapLoadErr v) ∧
        (applyEvs s (load s lo ro).1).error = some (wrapLoadErr v) ∧
        (v.isError = false →
          wrapLoadErr v = .errorVal "Failed to load music")) ∧
      (applyEvs s (load s lo ro).1).isLoading = false) := by
  constructor
  · intro h
    simp [load, h]
  · intro h
    refine ⟨?_, ?_, ?_, ?_⟩
    · rcases lo with v | u <;> rcases ro with w | u2 <;> simp [load, h]
    · intro hlo
      subst hlo
      rcases ro with w | u2 <;> simp [load, h]
    · intro v hlo
      subst hlo
      refine ⟨?_, ?_, ?_⟩
      · simp [load, h]
      · simp [load, h, applyEvs, applyEv]
      · intro hv
        simp [wrapLoadErr, hv]
    · rcases lo with v | u
      · simp [load, h, applyEvs, applyEv]
      · rcases ro with w | u2 <;> simp [load, h, applyEvs, applyEv]

/-- Witness for load_contract at a concrete initialized state with a
non-Error engine rejection. -/
theorem load_contract_witness :
    (⟨true, false, none⟩ : OSMDState).osmdInstance = true ∧
    (load ⟨true, false, none⟩ (Except.error (JSValue.nonError "x"))
        (Except.ok ())).2 = some (wrapLoadErr (JSValue.nonError "x")) := by
  refine ⟨rfl, ?_⟩
  exact (((load_contract ⟨true, false, none⟩
    (Except.error (JSValue.nonError "x")) (Except.ok ())).2 rfl).2.2.1
    (JSValue.nonError "x") rfl).1

/-- Claim C5: clear is a no-op on an uninitialized state; on an
initialized state it performs exactly one engine clear, resets the error
state to none and leaves isLoading unchanged; and a second clear in a
row again performs only its own engine clear and leaves the error state
none. -/
theorem clear_contract (s : OSMDState) :
    (s.osmdInstance = false → clear s = (s, [])) ∧
    (s.osmdInstance = true →
      (clear s).2 = [Ev.engineClear] ∧
      (clear s).1.error = none ∧
      (clear s).1.isLoading = s.isLoading ∧
      (clear (clear s).1).2 = [Ev.engineClear] ∧
      (clear (clear s).1).1.error = none) := by
  constructor
  · intro h
    simp [clear, h]
  · intro h
    simp [clear, h]

/-- Witness for clear_contract at a concrete initialized state carrying
an error. -/
theorem clear_contract_witness :
    (⟨true, true, some (JSValue.errorVal "e")⟩ : OSMDState).osmdInstance = true ∧
    (clear ⟨true, true, some (JSValue.errorVal "e")⟩).1.error = none := by
  refine ⟨rfl, ?_⟩
  exact ((clear_contract ⟨true, true, some (JSValue.errorVal "e")⟩).2 rfl).2.1

/-- Claim C3, counterexample to the as-stated claim on the
src/src/hooks/useOSMD.ts variant: starting from a fresh activation, a
first run whose engine construction throws attempts construction, and
because the latch is only set on success, a second run of the
initialization effect attempts construction again. -/
theorem init_retry_cex :
    (initEffect ⟨false, false, false, none⟩ true
        (Except.error (JSValue.errorVal "boom"))).2 = true ∧
    (initEffect
        (initEffect ⟨false, false, false, none⟩ true
          (Except.error (JSValue.errorVal "boom"))).1 true
        (Except.error (JSValue.errorVal "boom"))).2 = true := by
  constructor <;> rfl

/-- Claim C3, amended: in both initialization-effect variants a thrown
construction failure is captured into the error state (wrapped into the
generic initialization Error when the thrown value is not an Error) and
never propagated; the part_003 variant additionally suppresses every
later construction attempt after any attempted run, while the
src/src/hooks/useOSMD.ts variant suppresses later attempts only after a
successful construction. -/
theorem init_capture_contract (s : InitState) (c c2 : Bool)
    (o o2 : Except JSValue Unit) :
    (∀ v, o = .error v → s.initRef = false → c = true →
      (initEffect s c o).1.error = some (wrapInitErr v) ∧
      (initEffectV2 s c o).1.error = some (wrapInitErr v) ∧
      (v.isError = false →
        wrapInitErr v = .errorVal "Failed to initialize OSMD")) ∧
    ((initEffectV2 s c o).2 = true →
      (initEffectV2 (initEffectV2 s c o).1 c2 o2).2 = false) ∧
    ((initEffect s c o).2 = true → o = .ok () →
      (initEffect (initEffect s c o).1 c2 o2).2 = false) := by
  refine ⟨?_, ?_, ?_⟩
  · intro v ho hr hc
    subst ho
    subst hc
    refine ⟨?_, ?_, ?_⟩
    · simp [initEffect, hr]
    · simp [initEffectV2, hr]
    · intro hv
      simp [wrapInitErr, hv]
  · intro h2
    rcases s with ⟨ir, orf, om, er⟩
    cases c <;> cases ir <;> rcases o with v | u <;>
      simp [initEffectV2] at h2 ⊢
  · intro h2 ho
    subst ho
    rcases s with ⟨ir, orf, om, er⟩
    cases c <;> cases ir <;>
      simp [initEffect] at h2 ⊢

/-- Witness for init_capture_contract: a fresh activation whose engine
constructor throws a non-Error value. -/
theorem init_capture_contract_witness :
    (initEffect ⟨false, false, false, none⟩ true
        (Except.error (JSValue.nonError "t"))).1.error =
      some (wrapInitErr (JSValue.nonError "t")) :=
  ((init_capture_contract ⟨false, false, false, none⟩ true true
      (Except.error (JSValue.nonError "t")) (Except.ok ())).1
    (JSValue.nonError "t") rfl rfl rfl).1

end UseOSMD

namespace SheetMusic

/-- Claim C2, counterexample to the as-stated claim: with the empty
string as the file prop and no musicXML, a fresh initialized component
run triggers no load at all (the empty string is falsy, so the
both-absent guard returns before a source is resolved). -/
theorem emptyFile_cex :
    (sheetMusicEffect true (some (.str "")) none none none).loadCall = none := by
  rfl

/-- Claim C2, amended: an empty-string file prop is treated as absent
exactly like an empty-string musicXML prop; with no musicXML supplied it
never triggers a load and leaves both tracking values unchanged,
whatever the previous props were. -/
theorem emptyFile_no_load (osmdE : Bool) (prevF : Option FileProp)
    (prevX : Option String) :
    (sheetMusicEffect osmdE (some (.str "")) none prevF prevX).loadCall = none ∧
    (sheetMusicEffect osmdE (some (.str "")) none prevF prevX).prevFile = prevF ∧
    (sheetMusicEffect osmdE (some (.str "")) none prevF prevX).prevXML = prevX := by
  cases osmdE <;> simp [sheetMusicEffect, fileTruthy, xmlTruthy]

/-- Claim C4: whenever the component effect is run with a non-empty
musicXML string, any load it issues carries the Document obtained by
parsing that string as text/xml — regardless of the simultaneously
supplied file prop — and is never the raw musicXML string itself. -/
theorem musicXML_precedence (osmdE : Bool) (file : Option FileProp)
    (x : String) (prevF : Option FileProp) (prevX : Option String)
    (hx : x ≠ "") :
    ((sheetMusicEffect osmdE file (some x) prevF prevX).loadCall = none ∨
     (sheetMusicEffect osmdE file (some x) prevF prevX).loadCall =
        some (parseFromString x "text/xml")) ∧
    (sheetMusicEffect osmdE file (some x) prevF prevX).loadCall ≠
      some (.str x) := by
  have hxt : xmlTruthy (some x) = true := by simp [xmlTruthy, hx]
  cases osmdE
  · simp [sheetMusicEffect]
  · simp only [sheetMusicEffect, hxt]
    split_ifs <;> simp [parseFromString]

/-- Witness for musicXML_precedence: a concrete run where both props are
supplied and the issued load is the parsed Document. -/
theorem musicXML_precedence_witness :
    ("<a/>" ≠ "") ∧
    (sheetMusicEffect true (some (.str "f.xml")) (some "<a/>") none
        none).loadCall ≠ some (.str "<a/>") := by
  refine ⟨by decide, ?_⟩
  exact (musicXML_precedence true (some (.str "f.xml")) "<a/>" none none
    (by decide)).2

/-- Claim C9: a musicXML string that is non-empty but trims to the empty
string triggers no load and leaves the musicXML tracking value
unchanged. -/
theorem whitespace_no_load (osmdE : Bool) (file prevF : Option FileProp)
    (prevX : Option String) (x : String) (hx : x ≠ "")
    (ht : jsTrim x = "") :
    (sheetMusicEffect osmdE file (some x) prevF prevX).loadCall = none ∧
    (sheetMusicEffect osmdE file (some x) prevF prevX).prevXML = prevX := by
  have hxt : xmlTruthy (some x) = true := by simp [xmlTruthy, hx]
  cases osmdE
  · simp [sheetMusicEffect]
  · simp only [sheetMusicEffect, hxt]
    split_ifs <;> simp_all

/-- Witness for whitespace_no_load at a single-space musicXML string. -/
theorem whitespace_no_load_witness :
    (" " ≠ "") ∧ jsTrim " " = "" ∧
    (sheetMusicEffect true none (some " ") none none).loadCall = none := by
  refine ⟨by decide, by rfl, ?_⟩
  exact (whitespace_no_load true none none none " " (by decide) (by rfl)).1

end SheetMusic

namespace UsePageFormat

/-- Claim C6: the string branch of setFormat resolves every name missing
from the registry to the Endless entry, and in every case its result is
a genuine format (the Endless entry or the registry entry for the name),
never an undefined value. -/
theorem setFormat_fallback (name : String) :
    (PageFormats name = none → setFormatStr name = endlessFormat) ∧
    (setFormatStr name = endlessFormat ∨
      PageFormats name = some (setFormatStr name)) := by
  cases h : PageFormats name <;> simp [setFormatStr, h]

/-- Witness for setFormat_fallback at a name outside the registry. -/
theorem setFormat_fallback_witness :
    PageFormats "Bogus" = none ∧ setFormatStr "Bogus" = endlessFormat := by
  refine ⟨rfl, ?_⟩
  exact (setFormat_fallback "Bogus").1 rfl

/-- Claim C7: setCustomFormat without an id generates the
Custom_<w>x<h> idString, an explicitly supplied empty-string id is kept
as the idString, and the result always has isInfinite false. -/
theorem setCustomFormat_contract (w h : ℚ) :
    (setCustomFormat w h none).idString =
      "Custom_" ++ numToStr w ++ "x" ++ numToStr h ∧
    (setCustomFormat w h (some "")).idString = "" ∧
    ∀ id, (setCustomFormat w h id).isInfinite = some false := by
  exact ⟨rfl, rfl, fun id => rfl⟩

end UsePageFormat

namespace UseMultipleCursors

/-- Position-indexed filtering from an out-of-range index keeps every
element: helper for removeCursor over enumFrom. -/
theorem removeAux (index : Int) (cs : List CursorOptions) :
    ∀ n : Nat, (index < (n : Int) ∨ (n : Int) + cs.length ≤ index) →
      ((List.enumFrom n cs).filter
          (fun p => if (p.1 : Int) = index then false else true)).map
        Prod.snd = cs := by
  induction cs with
  | nil => intro n _; rfl
  | cons c cs ih =>
    intro n h
    simp only [List.length_cons] at h
    have hne : ¬((n : Int) = index) := by omega
    have h2 : index < ((n + 1 : Nat) : Int) ∨
        ((n + 1 : Nat) : Int) + cs.length ≤ index := by
      push_cast
      push_cast at h
      omega
    have ih2 := ih (n + 1) h2
    simp [List.enumFrom, List.filter_cons, hne]
    simpa using ih2

/-- Position-indexed mapping from an out-of-range index changes no
element: helper for updateCursor over enumFrom. -/
theorem updateAux (index : Int) (u : CursorUpdate) (cs : List CursorOptions) :
    ∀ n : Nat, (index < (n : Int) ∨ (n : Int) + cs.length ≤ index) →
      (List.enumFrom n cs).map
        (fun p => if (p.1 : Int) = index then mergeCursor p.2 u else p.2) =
        cs := by
  induction cs with
  | nil => intro n _; rfl
  | cons c cs ih =>
    intro n h
    simp only [List.length_cons] at h
    have hne : ¬((n : Int) = index) := by omega
    have h2 : index < ((n + 1 : Nat) : Int) ∨
        ((n + 1 : Nat) : Int) + cs.length ≤ index := by
      push_cast
      push_cast at h
      omega
    simp [List.enumFrom, hne, ih (n + 1) h2]

/-- Claim C8: for every index outside the range of the cursor list —
negative or at least the length — removeCursor and updateCursor return
the list exactly unchanged. -/
theorem outOfRange_noop (cs : List CursorOptions) (index : Int)
    (u : CursorUpdate) (h : index < 0 ∨ (cs.length : Int) ≤ index) :
    removeCursor cs index = cs ∧ updateCursor cs index u = cs := by
  have h0 : index < ((0 : Nat) : Int) ∨ ((0 : Nat) : Int) + cs.length ≤ index := by
    omega
  exact ⟨removeAux index cs 0 h0, updateAux index u cs 0 h0⟩

/-- Witness for outOfRange_noop on a one-element list with a negative
index. -/
theorem outOfRange_noop_witness :
    ((-1 : Int) < 0 ∨
      (([createDefaultCursor {}] : List CursorOptions).length : Int) ≤ -1) ∧
    removeCursor [createDefaultCursor {}] (-1) = [createDefaultCursor {}] := by
  refine ⟨Or.inl (by decide), ?_⟩
  exact (outOfRange_noop [createDefaultCursor {}] (-1) {}
    (Or.inl (by decide))).1

end UseMultipleCursors

namespace UseColoring

/-- Claim C10: whatever options record useColoring receives, the initial
darkMode state is false (the options record has no darkMode field), and
dark mode becomes true only through the setDarkMode setter. -/
theorem darkMode_initial_false (o : UseColoringOptions) :
    (useColoringInit o).darkMode = false ∧
    ∀ b, (setDarkMode (useColoringInit o) b).darkMode = b := by
  exact ⟨rfl, fun b => rfl⟩

end UseColoring
